import Mathlib

/-!
Shallow embedding of `opentelemetry-instrumentation-sqlalchemy`:
`SQLAlchemyInstrumentor._instrument` and `._uninstrument`
(src/instrumentation/opentelemetry-instrumentation-sqlalchemy/src/
opentelemetry/instrumentation/sqlalchemy/\_\_init\_\_.py), together with
spec-modelled fragments of the `EngineTracer` lifecycle hooks whose source
(engine.py) is outside the excerpt.
-/

/-- A SQLAlchemy engine instance, identified opaquely. -/
structure Engine where
  id : Nat
deriving DecidableEq, Repr

/-- A tracer-provider capability; `none` stands for the absent keyword,
which means the process-wide global provider is used. -/
abbrev TracerProvider := Option Nat

/-- `_get_tracer(tracer_provider)` from engine.py: obtains a tracer handle
from the provider, or from the global one when the provider is `none`.
Opaque to this development; modelled as carrying the provider through. -/
def _get_tracer (tracer_provider : TracerProvider) : TracerProvider :=
  tracer_provider

/-- The commenter-options mapping (option name to boolean) handed to
`EngineTracer`; the empty list is the empty mapping. -/
abbrev CommenterOptions := List (String × Bool)

/-- `EngineTracer(tracer, engine, enable_commenter, commenter_options)` as
constructed by `_instrument`: binds one tracer handle to one engine together
with the commenter configuration. Only the construction interface appears in
the excerpted source; the hook behaviour is modelled separately from the
spec. -/
structure EngineTracer where
  tracer : TracerProvider
  engine : Engine
  enable_commenter : Bool
  commenter_options : CommenterOptions
deriving DecidableEq, Repr

/-- The value bound to the `engines` keyword: either a `Sequence` of engines
(`isinstance(x, Sequence)` holds, e.g. a list) or some other iterable that is
not a `Sequence` (e.g. a generator), carrying the engines it would yield. -/
inductive EnginesArg where
  | seq (es : List Engine)
  | nonSeq (es : List Engine)
deriving DecidableEq, Repr

/-- The keyword arguments accepted by `SQLAlchemyInstrumentor._instrument`;
a field equal to `none` means the key is absent, so `kwargs.get` on it
returns `None`. -/
structure Kwargs where
  tracer_provider : TracerProvider := none
  engine : Option Engine := none
  engines : Option EnginesArg := none
  enable_commenter : Option Bool := none
  commenter_options : Option CommenterOptions := none
deriving DecidableEq, Repr

/-- Which entry points currently carry a wrapper installed by `_w` (wrapt's
`wrap_function_wrapper`): the two import paths of the synchronous
`create_engine`, the method `Engine.connect`, and `create_async_engine`. -/
structure WrapState where
  sqlalchemy_create_engine : Bool
  sqlalchemy_engine_create_engine : Bool
  engine_connect : Bool
  create_async_engine : Bool
deriving DecidableEq, Repr

/-- The state before any instrumentation: no wrapper installed anywhere. -/
def WrapState.initial : WrapState := ⟨false, false, false, false⟩

/-- Python tuple comparison `a >= b` between release tuples as produced by
`packaging.version.parse(...).release`: lexicographic, and a strict prefix is
smaller than any extension of it. -/
def releaseGE : List Nat → List Nat → Bool
  | _, [] => true
  | [], _ :: _ => false
  | a :: as, b :: bs =>
      if a > b then true
      else if a < b then false
      else releaseGE as bs

/-- The return value of `_instrument`: one `EngineTracer`, a list of them, or
Python's `None`. -/
inductive InstrumentResult where
  | one (t : EngineTracer)
  | many (ts : List EngineTracer)
  | nothing
deriving DecidableEq, Repr

/-- All `EngineTracer`s an `InstrumentResult` carries. -/
def InstrumentResult.tracers : InstrumentResult → List EngineTracer
  | .one t => [t]
  | .many ts => ts
  | .nothing => []

/-- `SQLAlchemyInstrumentor._instrument(**kwargs)` (lines 125-176 of the
source): wraps `sqlalchemy.create_engine`, `sqlalchemy.engine.create_engine`
and `Engine.connect` unconditionally; wraps
`sqlalchemy.ext.asyncio.create_async_engine` exactly when
`parse_version(sqlalchemy.__version__).release >= (1, 4)`; then returns an
`EngineTracer` for `kwargs["engine"]` if present, a list of them for
`kwargs["engines"]` if present and an instance of `Sequence`, and `None`
otherwise. `version` is the detected release tuple; the process-wide wrap
state is threaded explicitly. -/
def _instrument (version : List Nat) (st : WrapState) (kwargs : Kwargs) :
    WrapState × InstrumentResult :=
  let tracer_provider := kwargs.tracer_provider
  let st1 : WrapState :=
    { st with
        sqlalchemy_create_engine := true
        sqlalchemy_engine_create_engine := true
        engine_connect := true }
  let st2 : WrapState :=
    if releaseGE version [1, 4] then
      { st1 with create_async_engine := true }
    else st1
  match kwargs.engine with
  | some e =>
      (st2, .one
        ⟨_get_tracer tracer_provider, e,
          kwargs.enable_commenter.getD false,
          kwargs.commenter_options.getD []⟩)
  | none =>
      match kwargs.engines with
      | some (.seq es) =>
          (st2, .many (es.map fun e =>
            ⟨_get_tracer tracer_provider, e,
              kwargs.enable_commenter.getD false,
              kwargs.commenter_options.getD []⟩))
      | _ => (st2, .nothing)

/-- `SQLAlchemyInstrumentor._uninstrument(**kwargs)` (lines 178-183 of the
source): unwraps `sqlalchemy.create_engine`, `sqlalchemy.engine.create_engine`
and `Engine.connect`, and, exactly when the detected release tuple is
`>= (1, 4)`, also `sqlalchemy.ext.asyncio.create_async_engine`. -/
def _uninstrument (version : List Nat) (st : WrapState) : WrapState :=
  let st1 : WrapState :=
    { st with
        sqlalchemy_create_engine := false
        sqlalchemy_engine_create_engine := false
        engine_connect := false }
  if releaseGE version [1, 4] then
    { st1 with create_async_engine := false }
  else st1

/-- Modelled from the spec: an engine created through the synchronous
creation entry point carries a span-producing subscription exactly when the
wrapper is installed at creation time; each statement execution on it then
produces one span per subscription and none otherwise (the wrapper body,
engine.py's `_wrap_create_engine`, is not in the excerpted source). -/
def spansPerExecution (create_engine_wrapped : Bool) : Nat :=
  if create_engine_wrapped then 1 else 0

/-- Status a span is closed with. -/
inductive SpanStatus where
  | ok
  | error
deriving DecidableEq, Repr

/-- Span lifecycle events observed on an instrumented engine, keyed by the
execution-context identifier the host library provides. -/
inductive SpanEvent where
  | opened (ctx : Nat)
  | closed (ctx : Nat) (status : SpanStatus)
deriving DecidableEq, Repr

/-- Modelled from the spec: the span lifecycle of `EngineTracer`'s hooks
(engine.py, not in the excerpted source). One statement execution on
execution context `ctx` fires before-execute, which opens a span, followed by
exactly one of after-execute (closing it with success status) or the error
hook (closing it with error status) according to whether execution raises. -/
def executionEvents (ctx : Nat) (raises : Bool) : List SpanEvent :=
  [.opened ctx, .closed ctx (if raises then .error else .ok)]

/-- One scheduler step of concurrent executions: remove the head event of one
of the per-execution event sequences. -/
inductive TakeHead :
    List (List SpanEvent) → SpanEvent → List (List SpanEvent) → Prop where
  | head (x : SpanEvent) (l : List SpanEvent) (ls : List (List SpanEvent)) :
      TakeHead ((x :: l) :: ls) x (l :: ls)
  | tail (l : List SpanEvent) {ls : List (List SpanEvent)} {x : SpanEvent}
      {ls' : List (List SpanEvent)} :
      TakeHead ls x ls' → TakeHead (l :: ls) x (l :: ls')

/-- `tr` is an interleaving of the per-execution event sequences `ls`: events
of distinct executions may be scheduled in any relative order, while each
execution's own events keep their order. -/
inductive Interleaving : List (List SpanEvent) → List SpanEvent → Prop where
  | done (ls : List (List SpanEvent)) :
      (∀ l ∈ ls, l = []) → Interleaving ls []
  | step {ls : List (List SpanEvent)} {x : SpanEvent}
      {ls' : List (List SpanEvent)} {tr : List SpanEvent} :
      TakeHead ls x ls' → Interleaving ls' tr → Interleaving ls (x :: tr)

/-- Number of events in a trace satisfying `p`. -/
def countP (p : SpanEvent → Bool) (tr : List SpanEvent) : Nat :=
  (tr.filter p).length

/-- Whether an event opens a span. -/
def isOpened : SpanEvent → Bool
  | .opened _ => true
  | .closed _ _ => false

/-- Whether an event closes a span. -/
def isClosed : SpanEvent → Bool
  | .opened _ => false
  | .closed _ _ => true

/-- Number of spans opened in a trace. -/
def countOpened (tr : List SpanEvent) : Nat := countP isOpened tr

/-- Number of spans closed in a trace. -/
def countClosed (tr : List SpanEvent) : Nat := countP isClosed tr

/-- Modelled from the spec: the statement rewriting performed by
`EngineTracer`'s before-execute hook (engine.py, not in the excerpted
source). When the commenter is enabled it appends the structured trailing
comment `comment` (derived from driver identity, framework version and trace
context) to the outgoing statement text; otherwise it passes the text onward
unchanged; bound parameters pass through untouched in either mode. -/
def _before_cur_exec (et : EngineTracer) (comment : String)
    (statement : String) (params : List String) : String × List String :=
  if et.enable_commenter then (statement ++ comment, params)
  else (statement, params)

lemma countP_cons (p : SpanEvent → Bool) (x : SpanEvent) (tr : List SpanEvent) :
    countP p (x :: tr) = countP p [x] + countP p tr := by
  by_cases h : p x = true
  · simp [countP, List.filter_cons, h]
    omega
  · simp [countP, List.filter_cons, h]

lemma takeHead_countP (p : SpanEvent → Bool) {ls : List (List SpanEvent)}
    {x : SpanEvent} {ls' : List (List SpanEvent)} (h : TakeHead ls x ls') :
    (ls.map (countP p)).sum = countP p [x] + (ls'.map (countP p)).sum := by
  induction h with
  | head x l ls =>
      simp only [List.map_cons, List.sum_cons]
      rw [countP_cons p x l]
      omega
  | tail l _ ih =>
      simp only [List.map_cons, List.sum_cons]
      rw [ih]
      omega

lemma interleaving_countP (p : SpanEvent → Bool) {ls : List (List SpanEvent)}
    {tr : List SpanEvent} (h : Interleaving ls tr) :
    countP p tr = (ls.map (countP p)).sum := by
  induction h with
  | done ls hls =>
      have : ∀ n ∈ ls.map (countP p), n = 0 := by
        intro n hn
        rcases List.mem_map.mp hn with ⟨l, hl, rfl⟩
        simp [hls l hl, countP]
      simp [countP, List.sum_eq_zero this]
  | step hT _ ih =>
      rw [countP_cons, ih, takeHead_countP p hT]

lemma instrument_fst (v : List Nat) (st : WrapState) (kw : Kwargs) :
    (_instrument v st kw).1 =
      if releaseGE v [1, 4] then
        { st with
            sqlalchemy_create_engine := true
            sqlalchemy_engine_create_engine := true
            engine_connect := true
            create_async_engine := true }
      else
        { st with
            sqlalchemy_create_engine := true
            sqlalchemy_engine_create_engine := true
            engine_connect := true } := by
  obtain ⟨tp, eng, engs, ec, co⟩ := kw
  cases eng with
  | some e => rfl
  | none =>
    cases engs with
    | none => rfl
    | some arg => cases arg <;> rfl

lemma countP_executionEvents (p : SpanEvent → Bool) (l : List (Nat × Bool))
    (hp : ∀ ctx r, countP p (executionEvents ctx r) = 1) :
    ((l.map fun e => executionEvents e.1 e.2).map (countP p)).sum = l.length := by
  induction l with
  | nil => rfl
  | cons a l ih =>
    simp only [List.map_cons, List.sum_cons, List.length_cons, hp a.1 a.2, ih]
    omega

/-- C1: `instrument` with a single `engine` returns exactly one fully
constructed `EngineTracer` bound to that engine; with an `engines` sequence it
returns a list of `EngineTracer`s, one per input engine, in input order; with
neither it returns `None` while the global wrappers are still installed. -/
theorem instrument_return_shape (v : List Nat) (st : WrapState) (kw : Kwargs) :
    (∀ e : Engine, kw.engine = some e →
        (_instrument v st kw).2 =
          .one ⟨_get_tracer kw.tracer_provider, e,
                kw.enable_commenter.getD false, kw.commenter_options.getD []⟩) ∧
    (∀ es : List Engine, kw.engine = none → kw.engines = some (.seq es) →
        ∃ ts : List EngineTracer,
          (_instrument v st kw).2 = .many ts ∧
          ts.map EngineTracer.engine = es) ∧
    (kw.engine = none → kw.engines = none →
        (_instrument v st kw).2 = .nothing ∧
        (_instrument v st kw).1.sqlalchemy_create_engine = true ∧
        (_instrument v st kw).1.sqlalchemy_engine_create_engine = true ∧
        (_instrument v st kw).1.engine_connect = true) := by
  refine ⟨?_, ?_, ?_⟩
  · intro e he
    simp [_instrument, he]
  · intro es he hes
    refine ⟨es.map fun e =>
      ⟨_get_tracer kw.tracer_provider, e, kw.enable_commenter.getD false,
        kw.commenter_options.getD []⟩, ?_, ?_⟩
    · simp [_instrument, he, hes]
    · simp [List.map_map, Function.comp_def]
  · intro he hes
    refine ⟨by simp [_instrument, he, hes], ?_, ?_, ?_⟩ <;>
      (rw [instrument_fst]
       by_cases h : releaseGE v [1, 4] = true <;> simp [h])

/-- C1 witness: the three branches at concrete inputs. -/
theorem instrument_return_shape_witness :
    (_instrument [2, 0] WrapState.initial { engine := some ⟨5⟩ }).2 =
      .one ⟨none, ⟨5⟩, false, []⟩ ∧
    (∃ ts : List EngineTracer,
        (_instrument [2, 0] WrapState.initial
          { engines := some (.seq [⟨1⟩, ⟨2⟩]) }).2 = .many ts ∧
        ts.map EngineTracer.engine = [⟨1⟩, ⟨2⟩]) ∧
    ((_instrument [2, 0] WrapState.initial {}).2 = .nothing ∧
      (_instrument [2, 0] WrapState.initial {}).1.sqlalchemy_create_engine = true ∧
      (_instrument [2, 0] WrapState.initial {}).1.sqlalchemy_engine_create_engine = true ∧
      (_instrument [2, 0] WrapState.initial {}).1.engine_connect = true) :=
  ⟨(instrument_return_shape [2, 0] WrapState.initial { engine := some ⟨5⟩ }).1 ⟨5⟩ rfl,
   (instrument_return_shape [2, 0] WrapState.initial
      { engines := some (.seq [⟨1⟩, ⟨2⟩]) }).2.1 [⟨1⟩, ⟨2⟩] rfl rfl,
   (instrument_return_shape [2, 0] WrapState.initial {}).2.2 rfl rfl⟩

/-- C2: the async engine-creation entry point ends up wrapped exactly when
the detected release tuple is greater than or equal to (1, 4); lower versions
skip the wrap (and, the embedding being total, nothing is raised). -/
theorem async_wrap_iff_release_ge_14 (v : List Nat) (kw : Kwargs) :
    (_instrument v WrapState.initial kw).1.create_async_engine =
      releaseGE v [1, 4] := by
  rw [instrument_fst]
  by_cases h : releaseGE v [1, 4] = true <;> simp [h, WrapState.initial]

/-- C3: over any interleaving of the per-execution span events of a set of
concurrent statement executions (each either succeeding or raising), the
number of spans opened equals the number of spans closed; and each single
execution opens exactly one span and closes exactly one span, on exactly one
of the two paths. -/
theorem span_open_close_balance (execs : List (Nat × Bool)) (tr : List SpanEvent)
    (h : Interleaving (execs.map fun e => executionEvents e.1 e.2) tr) :
    countOpened tr = countClosed tr ∧
    ∀ e ∈ execs,
      countOpened (executionEvents e.1 e.2) = 1 ∧
      countClosed (executionEvents e.1 e.2) = 1 := by
  have hopen : ∀ ctx r, countP isOpened (executionEvents ctx r) = 1 := by
    intro ctx r
    simp [executionEvents, countP, List.filter, isOpened]
  have hclose : ∀ ctx r, countP isClosed (executionEvents ctx r) = 1 := by
    intro ctx r
    simp [executionEvents, countP, List.filter, isClosed]
  constructor
  · have h1 := interleaving_countP isOpened h
    have h2 := interleaving_countP isClosed h
    have e1 := countP_executionEvents isOpened execs hopen
    have e2 := countP_executionEvents isClosed execs hclose
    unfold countOpened countClosed
    rw [h1, h2, e1, e2]
  · intro e _
    exact ⟨hopen e.1 e.2, hclose e.1 e.2⟩

/-- C3 witness: two concurrent executions, one succeeding and one raising,
under a genuinely interleaved schedule. -/
theorem span_open_close_balance_witness :
    countOpened
        [SpanEvent.opened 0, SpanEvent.opened 1,
          SpanEvent.closed 1 SpanStatus.error, SpanEvent.closed 0 SpanStatus.ok] =
      countClosed
        [SpanEvent.opened 0, SpanEvent.opened 1,
          SpanEvent.closed 1 SpanStatus.error, SpanEvent.closed 0 SpanStatus.ok] :=
  (span_open_close_balance [(0, false), (1, true)]
    [SpanEvent.opened 0, SpanEvent.opened 1,
      SpanEvent.closed 1 SpanStatus.error, SpanEvent.closed 0 SpanStatus.ok]
    (show Interleaving
        [[SpanEvent.opened 0, SpanEvent.closed 0 SpanStatus.ok],
          [SpanEvent.opened 1, SpanEvent.closed 1 SpanStatus.error]]
        [SpanEvent.opened 0, SpanEvent.opened 1,
          SpanEvent.closed 1 SpanStatus.error, SpanEvent.closed 0 SpanStatus.ok] from
      .step (.head _ _ _)
        (.step (.tail _ (.head _ _ _))
          (.step (.tail _ (.head _ _ _))
            (.step (.head _ _ _)
              (.done _ (by simp))))))).1

/-- C4: `uninstrument` restores each entry point wrapped by `instrument` with
the identical version gate (the async entry point is unwrapped exactly when
the release tuple is greater than or equal to (1, 4)), and engines created
afterwards through the creation entry point produce no spans. -/
theorem uninstrument_restores (v : List Nat) (kw : Kwargs) :
    _uninstrument v (_instrument v WrapState.initial kw).1 = WrapState.initial ∧
    (∀ st : WrapState,
        (_uninstrument v st).sqlalchemy_create_engine = false ∧
        (_uninstrument v st).sqlalchemy_engine_create_engine = false ∧
        (_uninstrument v st).engine_connect = false ∧
        (_uninstrument v st).create_async_engine =
          (!releaseGE v [1, 4] && st.create_async_engine)) ∧
    spansPerExecution
        (_uninstrument v
          (_instrument v WrapState.initial kw).1).sqlalchemy_create_engine = 0 := by
  have hu : ∀ st : WrapState,
      (_uninstrument v st).sqlalchemy_create_engine = false ∧
      (_uninstrument v st).sqlalchemy_engine_create_engine = false ∧
      (_uninstrument v st).engine_connect = false ∧
      (_uninstrument v st).create_async_engine =
        (!releaseGE v [1, 4] && st.create_async_engine) := by
    intro st
    unfold _uninstrument
    by_cases h : releaseGE v [1, 4] = true <;> simp [h]
  refine ⟨?_, hu, ?_⟩
  · rw [instrument_fst]
    unfold _uninstrument
    by_cases h : releaseGE v [1, 4] = true <;> simp [h, WrapState.initial]
  · rw [spansPerExecution, (hu _).1]
    rfl

/-- C5: every `instrument` call installs the wrappers on both import paths of
the synchronous `create_engine` and on `Engine.connect`, whatever the options
are, and the resulting wrap state does not depend on the `engine` and
`engines` options. -/
theorem global_wrappers_always_installed (v : List Nat) (st : WrapState)
    (kw : Kwargs) :
    (_instrument v st kw).1.sqlalchemy_create_engine = true ∧
    (_instrument v st kw).1.sqlalchemy_engine_create_engine = true ∧
    (_instrument v st kw).1.engine_connect = true ∧
    (_instrument v st kw).1 =
      (_instrument v st { kw with engine := none, engines := none }).1 := by
  rw [instrument_fst, instrument_fst]
  by_cases h : releaseGE v [1, 4] = true <;> simp [h]

/-- C6: when `enable_commenter` is omitted it defaults to false and when
`commenter_options` is omitted it defaults to the empty mapping, in every
`EngineTracer` that `instrument` constructs. -/
theorem commenter_defaults (v : List Nat) (st : WrapState) (kw : Kwargs)
    (h1 : kw.enable_commenter = none) (h2 : kw.commenter_options = none) :
    ∀ t ∈ ((_instrument v st kw).2).tracers,
      t.enable_commenter = false ∧ t.commenter_options = [] := by
  intro t ht
  rcases he : kw.engine with _ | e
  · rcases hes : kw.engines with _ | arg
    · simp [_instrument, he, hes, InstrumentResult.tracers] at ht
    · rcases arg with es | es
      · simp [_instrument, he, hes, InstrumentResult.tracers] at ht
        rcases ht with ⟨e, _, rfl⟩
        simp [h1, h2]
      · simp [_instrument, he, hes, InstrumentResult.tracers] at ht
  · simp [_instrument, he, InstrumentResult.tracers] at ht
    subst ht
    simp [h1, h2]

/-- C6 witness: the defaults as seen on the tracer built for a concrete
engine with both options omitted. -/
theorem commenter_defaults_witness :
    (EngineTracer.mk none ⟨3⟩ false []).enable_commenter = false ∧
    (EngineTracer.mk none ⟨3⟩ false []).commenter_options = [] :=
  commenter_defaults [1, 4] WrapState.initial { engine := some ⟨3⟩ } rfl rfl
    (EngineTracer.mk none ⟨3⟩ false []) (by decide)

/-- C7: with the commenter disabled the statement text handed onward is
byte-identical to the submitted text, and bound parameters are unaltered in
either commenter mode. -/
theorem commenter_disabled_text_identical (et : EngineTracer)
    (comment statement : String) (params : List String) :
    (et.enable_commenter = false →
      (_before_cur_exec et comment statement params).1 = statement) ∧
    (_before_cur_exec et comment statement params).2 = params := by
  constructor
  · intro h
    simp [_before_cur_exec, h]
  · by_cases h : et.enable_commenter = true <;> simp [_before_cur_exec, h]

/-- C7 witness: a concrete disabled-commenter execution. -/
theorem commenter_disabled_text_identical_witness :
    (_before_cur_exec ⟨none, ⟨1⟩, false, []⟩ " /*c*/" "SELECT 1" ["p"]).1 =
      "SELECT 1" ∧
    (_before_cur_exec ⟨none, ⟨1⟩, false, []⟩ " /*c*/" "SELECT 1" ["p"]).2 =
      ["p"] :=
  ⟨(commenter_disabled_text_identical ⟨none, ⟨1⟩, false, []⟩ " /*c*/"
      "SELECT 1" ["p"]).1 rfl,
    (commenter_disabled_text_identical ⟨none, ⟨1⟩, false, []⟩ " /*c*/"
      "SELECT 1" ["p"]).2⟩

/-- C8: when both `engine` and `engines` are supplied, only the single engine
is instrumented and its `EngineTracer` is returned; the `engines` sequence is
ignored and no tracer is built for its elements. -/
theorem engine_takes_precedence (v : List Nat) (st : WrapState) (kw : Kwargs)
    (e : Engine) (h : kw.engine = some e) :
    (_instrument v st kw).2 =
      .one ⟨_get_tracer kw.tracer_provider, e,
        kw.enable_commenter.getD false, kw.commenter_options.getD []⟩ := by
  simp [_instrument, h]

/-- C8 witness: both options supplied, only the single engine's tracer
returned. -/
theorem engine_takes_precedence_witness :
    (_instrument [2, 0] WrapState.initial
        { engine := some ⟨1⟩, engines := some (.seq [⟨2⟩, ⟨3⟩]) }).2 =
      .one ⟨none, ⟨1⟩, false, []⟩ :=
  engine_takes_precedence [2, 0] WrapState.initial
    { engine := some ⟨1⟩, engines := some (.seq [⟨2⟩, ⟨3⟩]) } ⟨1⟩ rfl

/-- C9: an `engines` value that is not a `Sequence` makes `instrument` return
`None`, silently, with no `EngineTracer` built for any of its elements, while
the global wrappers are still installed. -/
theorem non_sequence_engines_ignored (v : List Nat) (st : WrapState)
    (kw : Kwargs) (es : List Engine) (h1 : kw.engine = none)
    (h2 : kw.engines = some (.nonSeq es)) :
    (_instrument v st kw).2 = .nothing ∧
    ((_instrument v st kw).2).tracers = [] ∧
    (_instrument v st kw).1.sqlalchemy_create_engine = true ∧
    (_instrument v st kw).1.sqlalchemy_engine_create_engine = true ∧
    (_instrument v st kw).1.engine_connect = true := by
  have hres : (_instrument v st kw).2 = .nothing := by
    simp [_instrument, h1, h2]
  refine ⟨hres, by rw [hres]; rfl, ?_, ?_, ?_⟩ <;>
    (rw [instrument_fst]
     by_cases h : releaseGE v [1, 4] = true <;> simp [h])

/-- C9 witness: a concrete non-Sequence engines value. -/
theorem non_sequence_engines_ignored_witness :
    (_instrument [1, 3] WrapState.initial
        { engines := some (.nonSeq [⟨7⟩]) }).2 = .nothing ∧
    ((_instrument [1, 3] WrapState.initial
        { engines := some (.nonSeq [⟨7⟩]) }).2).tracers = [] ∧
    (_instrument [1, 3] WrapState.initial
        { engines := some (.nonSeq [⟨7⟩]) }).1.sqlalchemy_create_engine = true ∧
    (_instrument [1, 3] WrapState.initial
        { engines := some (.nonSeq [⟨7⟩]) }).1.sqlalchemy_engine_create_engine
      = true ∧
    (_instrument [1, 3] WrapState.initial
        { engines := some (.nonSeq [⟨7⟩]) }).1.engine_connect = true :=
  non_sequence_engines_ignored [1, 3] WrapState.initial
    { engines := some (.nonSeq [⟨7⟩]) } [⟨7⟩] rfl rfl

/-- C10: an empty `engines` sequence makes `instrument` return the empty
list, not `None`, and no `EngineTracer` is constructed. -/
theorem empty_engines_empty_list (v : List Nat) (st : WrapState) (kw : Kwargs)
    (h1 : kw.engine = none) (h2 : kw.engines = some (.seq [])) :
    (_instrument v st kw).2 = .many [] ∧
    (_instrument v st kw).2 ≠ .nothing := by
  have hres : (_instrument v st kw).2 = .many [] := by
    simp [_instrument, h1, h2]
  exact ⟨hres, by rw [hres]; exact fun hc => InstrumentResult.noConfusion hc⟩

/-- C10 witness: a concrete empty engines sequence. -/
theorem empty_engines_empty_list_witness :
    (_instrument [1, 4] WrapState.initial
        { engines := some (.seq []) }).2 = .many [] ∧
    (_instrument [1, 4] WrapState.initial
        { engines := some (.seq []) }).2 ≠ .nothing :=
  empty_engines_empty_list [1, 4] WrapState.initial
    { engines := some (.seq []) } rfl rfl
